import Mathlib

/-!
# A verified model of the `stream-chat-js` client (`src/client.js`)

This file gives a shallow embedding, in Lean 4, of the parts of the
`StreamChat` client class that the specification talks about: session setup
(`setUser`), the connection entry point (`connect`), event listener
registration and dispatch (`on` / `off` / `_handleClientEvent`), state
recovery after a reconnect (`recoverState`), HTTP response handling
(`handleResponse` / `errorFromResponse`), the channel cache (`channel`),
and session teardown (`disconnect`).

JavaScript objects are modelled as association lists in insertion order,
JavaScript `undefined`/`null` as `Option`, promises as the identifier of the
construction that produced them, callback references as numeric identifiers
(reference equality becomes identifier equality), and a thrown exception as
the `err` case of `JSResult`.  `JSON.stringify` and `encodeURIComponent`
are embedded directly, since `connect` size-checks their composition.

Collaborator modules that are not part of the repository snapshot
(`signing.js`, `events.js`, `channel.js`, `client_state.js`,
`connection.js`) are modelled from the specification; each such definition
carries a doc comment starting with `Modelled from the spec:`.
-/

set_option autoImplicit false

/-- JSON values, as produced by the JavaScript runtime when the client
serializes its connect payload.  Object fields are kept in insertion
order, exactly as `JSON.stringify` enumerates them. -/
inductive JsonValue where
  | jnull
  | jbool (b : Bool)
  | jnum (n : Int)
  | jstr (s : String)
  | jarr (xs : List JsonValue)
  | jobj (fields : List (String × JsonValue))

/-- One hexadecimal digit, uppercase (as `encodeURIComponent` produces). -/
def hexChar : Nat → Char
  | 0 => '0' | 1 => '1' | 2 => '2' | 3 => '3' | 4 => '4'
  | 5 => '5' | 6 => '6' | 7 => '7' | 8 => '8' | 9 => '9'
  | 10 => 'A' | 11 => 'B' | 12 => 'C' | 13 => 'D' | 14 => 'E' | _ => 'F'

/-- One hexadecimal digit, lowercase (as `JSON.stringify` uses in
control-character escapes). -/
def hexCharLower : Nat → Char
  | 0 => '0' | 1 => '1' | 2 => '2' | 3 => '3' | 4 => '4'
  | 5 => '5' | 6 => '6' | 7 => '7' | 8 => '8' | 9 => '9'
  | 10 => 'a' | 11 => 'b' | 12 => 'c' | 13 => 'd' | 14 => 'e' | _ => 'f'

/-- The escape sequence `JSON.stringify` emits for one character of a
string value. -/
def jsonEscapeChar (c : Char) : List Char :=
  if c = '"' then ['\\', '"']
  else if c = '\\' then ['\\', '\\']
  else if c.toNat = 8 then ['\\', 'b']
  else if c.toNat = 12 then ['\\', 'f']
  else if c.toNat = 10 then ['\\', 'n']
  else if c.toNat = 13 then ['\\', 'r']
  else if c.toNat = 9 then ['\\', 't']
  else if c.toNat < 32 then
    ['\\', 'u', '0', '0', hexCharLower (c.toNat / 16), hexCharLower (c.toNat % 16)]
  else [c]

/-- String escaping as performed by `JSON.stringify` on string values and
object keys. -/
def jsonEscape (s : String) : String :=
  String.mk ((s.data.map jsonEscapeChar).flatten)

mutual

/-- Embedding of `JSON.stringify` on a JSON value. -/
def jsonStringifyV : JsonValue → String
  | .jnull => "null"
  | .jbool b => if b then "true" else "false"
  | .jnum n => toString n
  | .jstr s => "\"" ++ jsonEscape s ++ "\""
  | .jarr xs => "[" ++ jsonStringifyList xs ++ "]"
  | .jobj fs => "\x7b" ++ jsonStringifyFields fs ++ "\x7d"

/-- Comma-separated serialization of a JSON array's elements. -/
def jsonStringifyList : List JsonValue → String
  | [] => ""
  | [x] => jsonStringifyV x
  | x :: y :: rest => jsonStringifyV x ++ "," ++ jsonStringifyList (y :: rest)

/-- Comma-separated serialization of a JSON object's fields. -/
def jsonStringifyFields : List (String × JsonValue) → String
  | [] => ""
  | [(k, v)] => "\"" ++ jsonEscape k ++ "\":" ++ jsonStringifyV v
  | (k, v) :: y :: rest =>
      "\"" ++ jsonEscape k ++ "\":" ++ jsonStringifyV v ++ "," ++
        jsonStringifyFields (y :: rest)

end

/-- Characters `encodeURIComponent` leaves unescaped:
`A-Z a-z 0-9 - _ . ! ~ * ( )` and the apostrophe (code 39). -/
def isUnreservedURIChar (c : Char) : Bool :=
  let n := c.toNat
  (decide (65 ≤ n) && decide (n ≤ 90)) ||
  (decide (97 ≤ n) && decide (n ≤ 122)) ||
  (decide (48 ≤ n) && decide (n ≤ 57)) ||
  decide (n = 45) || decide (n = 95) || decide (n = 46) || decide (n = 33) ||
  decide (n = 126) || decide (n = 42) || decide (n = 39) ||
  decide (n = 40) || decide (n = 41)

/-- UTF-8 byte sequence of one character (used by `encodeURIComponent` for
escaped characters). -/
def utf8Bytes (c : Char) : List Nat :=
  let n := c.toNat
  if n < 128 then [n]
  else if n < 2048 then [192 + n / 64, 128 + n % 64]
  else if n < 65536 then [224 + n / 4096, 128 + (n / 64) % 64, 128 + n % 64]
  else [240 + n / 262144, 128 + (n / 4096) % 64, 128 + (n / 64) % 64, 128 + n % 64]

/-- `encodeURIComponent` on one character. -/
def encodeURIChar (c : Char) : List Char :=
  if isUnreservedURIChar c then [c]
  else ((utf8Bytes c).map (fun b => ['%', hexChar (b / 16), hexChar (b % 16)])).flatten

/-- Embedding of the JavaScript global `encodeURIComponent`. -/
def encodeURIComponent (s : String) : String :=
  String.mk ((s.data.map encodeURIChar).flatten)

/-- Modelled from the spec: `signing.js` is not part of the repository
snapshot.  Per §6, token signing "given a secret and a user ID, produce[s] a
signed auth token; given a token, extract[s] the embedded user ID".  A token
is therefore modelled as its raw wire string together with the user id
embedded in its payload (absent for server tokens). -/
structure Token where
  user_id : Option String
  raw : String
  deriving DecidableEq

/-- Modelled from the spec: `UserFromToken` of `signing.js` returns the user
id embedded in the token's payload, or nothing when the payload has none. -/
def UserFromToken (t : Token) : Option String :=
  t.user_id

/-- Modelled from the spec: `JWTUserToken` of `signing.js` signs a token for
`userID` with the application `secret`; the token embeds `userID`. -/
def JWTUserToken (secret : Option String) (userID : String) : Token :=
  { user_id := some userID, raw := secret.getD "" ++ "." ++ userID }

/-- Modelled from the spec: `JWTServerToken` of `signing.js` signs a
server-side token from the application secret; it embeds no user id. -/
def JWTServerToken (secret : Option String) : Token :=
  { user_id := none, raw := "server." ++ secret.getD "" }

/-- JavaScript string truthiness for an optionally-present string field:
`undefined`, `null` and `""` are falsy. -/
def truthyStr : Option String → Bool
  | none => false
  | some s => s ≠ ""

/-- A user object passed to `setUser` (or held in `this.user`): its `id`
field plus the remaining custom fields, in insertion order. -/
structure User where
  id : Option String
  extra : List (String × JsonValue)

/-- The field list of a user object as the spread `{ ...user }` produces it
(`id` first when present, then the custom fields). -/
def userFields (u : User) : List (String × JsonValue) :=
  (match u.id with
   | some s => [("id", JsonValue.jstr s)]
   | none => []) ++ u.extra

/-- A registered event callback.  `lid` models the function reference (two
listeners are the same reference exactly when their `lid`s agree) and
`throws` models whether calling the listener raises an exception. -/
structure Listener where
  lid : Nat
  throws : Bool
  deriving DecidableEq

/-- A chat message; only its id matters to the client code modelled here. -/
structure Message where
  id : String
  deriving DecidableEq

/-- The client-side channel object held in `activeChannels`.  `objId`
models the JavaScript object identity; `data` and `_data` are the two data
fields `client.channel` writes; `messages` is the channel state cache's
chronological message sequence (used by `lastMessage`). -/
structure Channel where
  objId : Nat
  chanType : String
  chanId : Option String
  cid : String
  data : List (String × JsonValue)
  _data : List (String × JsonValue)
  messages : List Message

/-- Modelled from the spec: `channel.js` is not part of the repository
snapshot.  Per §4.3 the message sequence is chronological, so the last
known message is the final element of the sequence. -/
def Channel.lastMessage (ch : Channel) : Option Message :=
  ch.messages.getLast?

/-- Modelled from the spec: the `Channel` constructor of `channel.js` stores
the client-provided type, id and custom data and derives the composite
identifier `type:id` (§3, "keyed by `(channel type, channel id)`"). -/
def newChannel (objId : Nat) (channelType : String) (channelID : Option String)
    (custom : List (String × JsonValue)) : Channel :=
  { objId := objId
    chanType := channelType
    chanId := channelID
    cid := channelType ++ ":" ++ (match channelID with | some s => s | none => "undefined")
    data := custom
    _data := custom
    messages := [] }

/-- Lookup in a JavaScript object modelled as an association list. -/
def assocGet {α : Type} : List (String × α) → String → Option α
  | [], _ => none
  | (k, v) :: rest, key => if k = key then some v else assocGet rest key

/-- Lookup with a default, mirroring reads of a possibly-missing key. -/
def assocGetD {α : Type} (l : List (String × α)) (key : String) (d : α) : α :=
  (assocGet l key).getD d

/-- Assignment `obj[key] = v` on a JavaScript object: updates the existing
entry in place, otherwise appends the key (insertion order). -/
def assocSet {α : Type} : List (String × α) → String → α → List (String × α)
  | [], key, v => [(key, v)]
  | (k, w) :: rest, key, v =>
      if k = key then (k, v) :: rest else (k, w) :: assocSet rest key v

/-- Modelled from the spec: `events.js` is not part of the repository
snapshot.  A valid event-type key is the catch-all `"all"` or one of the
event types the spec names (§4.2, §4.3, §8). -/
def isValidEventType (k : String) : Bool :=
  ["all", "message.new", "message.updated", "message.deleted",
   "user.presence.changed", "user.updated", "user.watching.start",
   "health.check", "notification.message_new", "connection.recovered",
   "typing.start", "typing.stop",
   "location.sharing_started", "location.sharing_stopped"].contains k

/-- Result of a JavaScript call that can throw: a normal value or the
message of the thrown `Error`. -/
inductive JSResult (α : Type) where
  | ok (a : α)
  | err (msg : String)
  deriving DecidableEq

/-- An inbound event as seen by `_handleClientEvent`: its `type`
discriminant, optional routing `cid`, and the payload fields the handler
reads (`event.user`, `event.me`, `event.channel.type`,
`event.channel.config`). -/
structure Event where
  type : String
  cid : Option String
  user : Option User
  me : Option User
  channelType : Option String
  channelConfig : Option JsonValue

/-- Modelled from the spec: `client_state.js` is not part of the repository
snapshot.  Per §4.2 user-presence/update events "update the shared user
cache"; the cache maps user id to last-known attributes, and an absent user
record leaves it unchanged. -/
def updateUserCache (cache : List (String × User)) (u : Option User) :
    List (String × User) :=
  match u with
  | none => cache
  | some user =>
      match user.id with
      | some uid => assocSet cache uid user
      | none => cache

/-- The body of an HTTP response, as `handleResponse` reads it: the optional
`code` and `message` fields of the error payload. -/
structure ResponseBody where
  code : Option Int
  message : Option String
  deriving DecidableEq

/-- An HTTP response as `handleResponse` receives it: numeric status and an
optional parsed body. -/
structure HttpResponse where
  status : Nat
  data : Option ResponseBody
  deriving DecidableEq

/-- The `Error` object built by `errorFromResponse`, with the `code`,
`status` and `response` properties the code attaches. -/
structure StreamError where
  message : String
  code : Option Int
  status : Nat
  response : HttpResponse
  deriving DecidableEq

/-- JavaScript template-literal rendering of a possibly-undefined string. -/
def jsStr : Option String → String
  | none => "undefined"
  | some s => s

/-- JavaScript truthiness of the `code` field (`response.data.code`):
`0`, `null` and `undefined` are falsy. -/
def codeTruthy : Option Int → Bool
  | some n => n ≠ 0
  | none => false

/-- Outcome of `handleResponse`: the returned body, or the thrown
`StreamError`. -/
inductive HandleResult where
  | ok (data : Option ResponseBody)
  | thrown (e : StreamError)
  deriving DecidableEq

/-- An action recorded by `recoverState`: the arguments of its
`queryChannels` call (filter cids, sort field and direction, options). -/
structure QueryCall where
  cidIn : List String
  sortField : String
  sortDirection : Int
  limit : Nat
  recovery : Bool
  last_message_ids : List (String × Option String)
  deriving DecidableEq

/-- The trace of externally visible steps `recoverState` performs, in
program order: the awaited `queryChannels` call and the synthetic event
handed to `dispatchEvent`. -/
inductive RecoverAction where
  | query (q : QueryCall)
  | dispatchEv (etype : String)
  deriving DecidableEq

/-- The argument in `channelID` position of `client.channel`: a string id,
a custom-data object (the two-parameter form), or `undefined`. -/
inductive ChannelIdArg where
  | str (s : String)
  | data (d : List (String × JsonValue))
  | undef

/-- The state of one `StreamChat` instance (`src/client.js`).  The fields
mirror the JavaScript instance fields; in addition `wsConnectionCount`
counts how many `StableWSConnection` objects (physical sockets) have been
constructed, `wsPromiseId` identifies the promise currently stored in
`this.wsPromise` (the promise of the `n`-th construction is `n`), and
`cleaningActive` / `heartbeatActive` / `backoffActive` record whether the
periodic clean interval, the connection heartbeat and the reconnect backoff
timer are currently scheduled. -/
structure StreamChat where
  key : String
  secret : Option String
  userToken : Option Token
  userID : Option String
  user : Option User
  _user : Option (List (String × JsonValue))
  anonymous : Option Bool
  listeners : List (String × List Listener)
  activeChannels : List (String × Channel)
  configs : List (String × JsonValue)
  state : List (String × User)
  baseURL : String
  wsBaseURL : String
  clientID : Option String
  UUID : Option String
  connecting : Bool
  failures : Nat
  wsConnectionCount : Nat
  hasWsConnection : Bool
  wsPromiseId : Option Nat
  wsURL : Option String
  cleaningActive : Bool
  heartbeatActive : Bool
  backoffActive : Bool
  connectionEstablishedCount : Nat
  nextObjId : Nat

/-- The `StreamChat` constructor: sets key and secret, empty listener and
channel tables, the default base URL (`setBaseURL` derives the WebSocket
URL by replacing `http` with `ws`), `userToken = null`,
`anonymous = false`, no connection yet, and starts the periodic cleaning
interval (`_startCleaning`, a 500 ms `setInterval` calling
`channel.clean()` on every active channel). -/
def StreamChat.newClient (key : String) (secret : Option String) : StreamChat :=
  { key := key
    secret := secret
    userToken := none
    userID := none
    user := none
    _user := none
    anonymous := some false
    listeners := []
    activeChannels := []
    configs := []
    state := []
    baseURL := "https://chat-us-east-1.stream-io-api.com"
    wsBaseURL := ("https://chat-us-east-1.stream-io-api.com").replace "http" "ws"
    clientID := none
    UUID := none
    connecting := false
    failures := 0
    wsConnectionCount := 0
    hasWsConnection := false
    wsPromiseId := none
    wsURL := none
    cleaningActive := true
    heartbeatActive := false
    backoffActive := false
    connectionEstablishedCount := 0
    nextObjId := 0 }

/-- `getAuthType`: `anonymous` truthy selects `"anonymous"`, else `"jwt"`. -/
def StreamChat.getAuthType (c : StreamChat) : String :=
  if c.anonymous = some true then "anonymous" else "jwt"

/-- `_isUsingServerAuth`: `!!this.secret`. -/
def StreamChat._isUsingServerAuth (c : StreamChat) : Bool :=
  truthyStr c.secret

/-- `_setUser`: stores `this.user = user` and `this._user = { ...user }`. -/
def StreamChat._setUser (c : StreamChat) (user : User) : StreamChat :=
  { c with user := some user, _user := some (userFields user) }

/-- `on(callbackOrString, callbackOrNothing)`: `keyArg = none` models the
one-argument form (key `"all"`).  Validates the event type, then appends
the callback to the key's list (creating the list when absent) — no
deduplication. -/
def StreamChat.on (c : StreamChat) (keyArg : Option String) (callback : Listener) :
    JSResult StreamChat :=
  let key := match keyArg with | some k => k | none => "all"
  if isValidEventType key = false then .err ("Invalid event type " ++ key)
  else
    .ok { c with
          listeners :=
            assocSet c.listeners key (assocGetD c.listeners key [] ++ [callback]) }

/-- `off(callbackOrString, callbackOrNothing)`: validates the event type,
then replaces the key's list with its filter by reference inequality
(`value !== callback`). -/
def StreamChat.off (c : StreamChat) (keyArg : Option String) (callback : Listener) :
    JSResult StreamChat :=
  let key := match keyArg with | some k => k | none => "all"
  if isValidEventType key = false then .err ("Invalid event type " ++ key)
  else
    .ok { c with
          listeners :=
            assocSet c.listeners key
              ((assocGetD c.listeners key []).filter (fun v => v.lid != callback.lid)) }

/-- The listener set `_handleClientEvent` gathers for one event: the
`"all"`-scope listeners followed by the listeners of the event's own type,
each in registration order. -/
def gatherListeners (c : StreamChat) (etype : String) : List Listener :=
  assocGetD c.listeners "all" [] ++ assocGetD c.listeners etype []

/-- The `for (const listener of listeners) listener(event)` loop: each
listener is invoked in order; the loop body has no exception handler, so a
throwing listener ends the loop and the exception propagates.  Returns the
identities of the listeners that were invoked and, when one threw, its
identity. -/
def runListeners : List Listener → List Nat × Option Nat
  | [] => ([], none)
  | l :: rest =>
      if l.throws then ([l.lid], some l.lid)
      else
        let r := runListeners rest
        (l.lid :: r.1, r.2)

/-- `_handleClientEvent(event)`: applies the well-known side effects on
process-wide state (user cache on presence/update events, own user record
on `health.check`, channel-config cache on `notification.message_new`),
then gathers the `"all"`-scope and type-scope listeners and invokes them in
order.  Returns the updated client, the invoked listener identities, and
the identity of the throwing listener if any. -/
def StreamChat._handleClientEvent (c : StreamChat) (e : Event) :
    StreamChat × List Nat × Option Nat :=
  let c1 :=
    if e.type = "user.presence.changed" ∨ e.type = "user.updated" then
      { c with state := updateUserCache c.state e.user }
    else c
  let c2 :=
    if e.type = "health.check" then
      match e.me with
      | some me => { c1 with user := some me, state := updateUserCache c1.state (some me) }
      | none => c1
    else c1
  let c3 :=
    if e.type = "notification.message_new" then
      match e.channelType with
      | some t => { c2 with configs := assocSet c2.configs t (e.channelConfig.getD JsonValue.jnull) }
      | none => c2
    else c2
  let gathered := gatherListeners c3 e.type
  let r := runListeners gathered
  (c3, r.1, r.2)

/-- `errorFromResponse(response)`: a generic error carrying the HTTP
status; when the body is truthy and carries a truthy `code`, a richer error
whose message embeds the server `code` and `message` and whose `code`
property is set.  Both carry `status` and the original response. -/
def StreamChat.errorFromResponse (response : HttpResponse) : StreamError :=
  let generic : StreamError :=
    { message := "StreamChat error HTTP code: " ++ toString response.status
      code := none
      status := response.status
      response := response }
  match response.data with
  | some body =>
      if codeTruthy body.code then
        { message := "StreamChat error code " ++ toString (body.code.getD 0) ++ ": " ++
            jsStr body.message
          code := body.code
          status := response.status
          response := response }
      else generic
  | none => generic

/-- The first character of the decimal rendering of the status
(`(response.status + '')[0]`). -/
def statusFirstChar (status : Nat) : Char :=
  (toString status).toList.headD ' '

/-- `handleResponse(response)`: throws `errorFromResponse(response)` when
the decimal status string does not begin with `'2'`, otherwise returns
`response.data`. -/
def StreamChat.handleResponse (response : HttpResponse) : HandleResult :=
  if statusFirstChar response.status ≠ '2' then
    .thrown (StreamChat.errorFromResponse response)
  else .ok response.data

/-- `recoverState`: collects the active channel cids (`Object.keys`) and a
map from each active channel's `cid` to its last known message id; when at
least one channel is active it awaits `queryChannels` with filter
`cid $in cids`, sort `last_message_at: -1` and options
`limit: 30, recovery: true, last_message_ids`, and only then dispatches the
synthetic `connection.recovered` event; with no active channels it does
nothing.  The awaited call and the dispatch are recorded in program
order. -/
def StreamChat.recoverState (c : StreamChat) : List RecoverAction :=
  let cids := c.activeChannels.map Prod.fst
  let lastMessageIDs :=
    c.activeChannels.foldl
      (fun acc p => acc ++ [(p.2.cid, (p.2.lastMessage).map Message.id)]) []
  if cids.length ≠ 0 then
    [RecoverAction.query
      { cidIn := cids
        sortField := "last_message_at"
        sortDirection := -1
        limit := 30
        recovery := true
        last_message_ids := lastMessageIDs },
     RecoverAction.dispatchEv "connection.recovered"]
  else []

/-- The object `connect` serializes into the query string:
`{ client_id, user_id, user_details, user_token }`, with
`JSON.stringify` omitting fields that are `undefined` and rendering `null`
as `null`. -/
def connectParamsJson (c : StreamChat) : JsonValue :=
  JsonValue.jobj
    ((([("client_id", c.clientID.map JsonValue.jstr),
        ("user_id", c.userID.map JsonValue.jstr),
        ("user_details", c._user.map JsonValue.jobj),
        ("user_token", some (match c.userToken with
          | some t => JsonValue.jstr t.raw
          | none => JsonValue.jnull))] :
        List (String × Option JsonValue))).filterMap
      (fun p => p.2.map (fun v => (p.1, v))))

/-- `encodeURIComponent(JSON.stringify(params))` as computed in `connect`. -/
def connectQs (c : StreamChat) : String :=
  encodeURIComponent (jsonStringifyV (connectParamsJson c))

/-- `connect()`: sets `connecting` and resets `failures`; throws when no
user is set; computes the encoded handshake query string and throws
`User object is too large` when it exceeds 1900 characters; otherwise
derives the auth token and WebSocket URL, constructs a new
`StableWSConnection` (modelled by incrementing `wsConnectionCount` — the
constructed connection opens one physical socket), stores its fresh connect
promise in `wsPromise`, and returns that promise. -/
def StreamChat.connect (c : StreamChat) : StreamChat × JSResult Nat :=
  let c1 := { c with connecting := true, failures := 0 }
  if c1.userID = none then
    (c1, .err "Call setUser or setAnonymousUser before starting the connection")
  else
    let qs := connectQs c1
    if qs.length > 1900 then (c1, .err "User object is too large")
    else
      let tokenStr :=
        if c1.anonymous = some false then
          match c1.userToken with
          | some t => t.raw
          | none => (JWTServerToken c1.secret).raw
        else ""
      let url := c1.wsBaseURL ++ "/connect?json=" ++ qs ++ "&api_key=" ++ c1.key ++
        "&authorization=" ++ tokenStr ++ "&stream-auth-type=" ++ c1.getAuthType
      let pid := c1.wsConnectionCount
      ({ c1 with
          wsURL := some url
          wsConnectionCount := pid + 1
          hasWsConnection := true
          wsPromiseId := some pid },
       .ok pid)

/-- `_setupConnection()`: generates a fresh UUID (passed in, as the model
of the random generator), derives `clientID` as `userID--UUID`, calls
`connect()` and returns `this.wsPromise`. -/
def StreamChat._setupConnection (uuid : String) (c : StreamChat) :
    StreamChat × JSResult Nat :=
  let c1 := { c with
              UUID := some uuid
              clientID := some ((match c.userID with
                | some s => s
                | none => "undefined") ++ "--" ++ uuid) }
  c1.connect

/-- `setUser(user, userToken)`: throws when a user id is already set;
assigns `this.userID = user.id` and throws when it is falsy; stores the
token, deriving one from the api secret when no token was passed; throws
when neither is available; validates that a passed token embeds a user id
matching `user.id`; then stores the user records, clears `anonymous`, and
starts the connection via `_setupConnection`. -/
def StreamChat.setUser (c : StreamChat) (uuid : String) (user : User)
    (userToken : Option Token) : StreamChat × JSResult Nat :=
  if truthyStr c.userID then
    (c, .err "Use client.disconnect() before trying to connect as a different user. setUser was called twice.")
  else
    let c1 := { c with userID := user.id }
    if truthyStr c1.userID = false then
      (c1, .err "The \"id\" field on the user is missing")
    else
      let c2 := { c1 with userToken := userToken }
      let c3 :=
        if userToken = none ∧ c2.secret ≠ none then
          { c2 with userToken := some (JWTUserToken c2.secret (c2.userID.getD "")) }
        else c2
      if c3.userToken = none then
        (c3, .err "both userToken and api secret are not provided")
      else
        let tokenUserId :=
          match c3.userToken with
          | some t => UserFromToken t
          | none => none
        if userToken ≠ none ∧
            (tokenUserId = none ∨ tokenUserId = some "" ∨ tokenUserId ≠ user.id) then
          (c3, .err "userToken does not have a user_id or is not matching with user.id")
        else
          let c4 := { c3._setUser user with anonymous := some false }
          StreamChat._setupConnection uuid c4

/-- `disconnect()`: deletes the user-specific fields (`user`, `_user`,
`anonymous`, `userID`, `userToken`), resets the established-connection
count, and — when a `StableWSConnection` exists — calls its `disconnect`,
which (modelled from the spec, `connection.js` not being in the snapshot)
closes the socket without reconnecting and clears the heartbeat and
backoff timers.  Nothing here touches `cleaningIntervalRef`: the periodic
cleaning interval keeps running. -/
def StreamChat.disconnect (c : StreamChat) : StreamChat :=
  let c1 := { c with
              user := none
              _user := none
              anonymous := none
              userID := none
              userToken := none
              connectionEstablishedCount := 0 }
  if c1.hasWsConnection then
    { c1 with heartbeatActive := false, backoffActive := false }
  else c1

/-- JavaScript `~str.indexOf(ch)`: whether the string contains the
character. -/
def jsContains (s : String) (ch : Char) : Bool :=
  s.data.contains ch

/-- `channel(channelType, channelID, custom = {})`: requires a user or
server auth; rejects `:` in the type or a string id; a non-string id means
the two-parameter form (the id becomes `undefined` and the second argument
is the custom data).  For a truthy string id, an existing entry of
`activeChannels` under `type:id` is returned as-is — with its `data` and
`_data` replaced wholesale by `custom` when `custom` has at least one key —
and otherwise a fresh `Channel` is constructed and cached.  Without an id a
fresh, uncached `Channel` is returned. -/
def StreamChat.channel (c : StreamChat) (channelType : String)
    (channelID : ChannelIdArg) (custom : List (String × JsonValue)) :
    JSResult (StreamChat × Channel) :=
  if truthyStr c.userID = false ∧ c._isUsingServerAuth = false then
    .err "Call setUser or setAnonymousUser before creating a channel"
  else if jsContains channelType ':' then
    .err ("Invalid channel group " ++ channelType ++ ", cant contain the : character")
  else
    match channelID with
    | .str s =>
        if jsContains s ':' then
          .err ("Invalid channel id " ++ s ++ ", cant contain the : character")
        else if s ≠ "" then
          let cid := channelType ++ ":" ++ s
          match assocGet c.activeChannels cid with
          | some cached =>
              if custom.length > 0 then
                let ch := { cached with data := custom, _data := custom }
                .ok ({ c with activeChannels := assocSet c.activeChannels cid ch }, ch)
              else .ok (c, cached)
          | none =>
              let ch := newChannel c.nextObjId channelType (some s) custom
              .ok ({ c with
                      activeChannels := assocSet c.activeChannels ch.cid ch
                      nextObjId := c.nextObjId + 1 }, ch)
        else
          let ch := newChannel c.nextObjId channelType none custom
          .ok ({ c with nextObjId := c.nextObjId + 1 }, ch)
    | .data d =>
        let ch := newChannel c.nextObjId channelType none d
        .ok ({ c with nextObjId := c.nextObjId + 1 }, ch)
    | .undef =>
        let ch := newChannel c.nextObjId channelType none []
        .ok ({ c with nextObjId := c.nextObjId + 1 }, ch)

set_option maxRecDepth 10000

/-- An event carrying only a type, as dispatched to scoped listeners. -/
def basicEvent (t : String) : Event :=
  { type := t, cid := none, user := none, me := none,
    channelType := none, channelConfig := none }

lemma foldl_push_eq_map {α β : Type} (g : α → β) (L : List α) (acc : List β) :
    L.foldl (fun a p => a ++ [g p]) acc = acc ++ L.map g := by
  induction L generalizing acc with
  | nil => simp
  | cons x xs ih => simp [ih, List.append_assoc]

lemma runListeners_no_throw (L : List Listener) (h : ∀ l ∈ L, l.throws = false) :
    runListeners L = (L.map Listener.lid, none) := by
  induction L with
  | nil => rfl
  | cons x xs ih =>
    have hx : x.throws = false := h x (by simp)
    have ihh := ih (fun l hl => h l (by simp [hl]))
    simp [runListeners, hx, ihh]

lemma runListeners_append_throw (pre : List Listener) (l : Listener)
    (post : List Listener) (hpre : ∀ p ∈ pre, p.throws = false)
    (hl : l.throws = true) :
    runListeners (pre ++ l :: post) = (pre.map Listener.lid ++ [l.lid], some l.lid) := by
  induction pre with
  | nil => simp [runListeners, hl]
  | cons x xs ih =>
    have hx : x.throws = false := hpre x (by simp)
    have ihh := ih (fun p hp => hpre p (by simp [hp]))
    simp [runListeners, hx, ihh]

lemma count_map_lid_eq_zero (L : List Listener) (x : Nat)
    (h : ∀ l ∈ L, l.lid ≠ x) : (L.map Listener.lid).count x = 0 := by
  induction L with
  | nil => rfl
  | cons a as ih =>
    have ha := h a (by simp)
    have ihh := ih (fun l hl => h l (by simp [hl]))
    simp [List.count_cons, ihh, ha]

lemma assocGet_assocSet_self {α : Type} (l : List (String × α)) (k : String) (v : α) :
    assocGet (assocSet l k v) k = some v := by
  induction l with
  | nil => simp [assocSet, assocGet]
  | cons p rest ih =>
    obtain ⟨k', w⟩ := p
    by_cases h : k' = k
    · simp [assocSet, assocGet, h]
    · simp [assocSet, assocGet, h, ih]

lemma assocGet_assocSet_ne {α : Type} (l : List (String × α)) (k k' : String) (v : α)
    (h : k' ≠ k) : assocGet (assocSet l k v) k' = assocGet l k' := by
  have h' : ¬(k = k') := fun hh => h hh.symm
  induction l with
  | nil => simp [assocSet, assocGet, h']
  | cons p rest ih =>
    obtain ⟨k0, w⟩ := p
    by_cases h0 : k0 = k
    · subst h0
      simp [assocSet, assocGet, h']
    · by_cases h1 : k0 = k'
      · subst h1
        simp [assocSet, assocGet, h0]
      · simp [assocSet, assocGet, h0, h1, ih]

lemma handleClientEvent_fst_listeners (c : StreamChat) (e : Event) :
    ((c._handleClientEvent e).1).listeners = c.listeners := by
  unfold StreamChat._handleClientEvent
  dsimp only
  repeat' split
  all_goals rfl

lemma handleClientEvent_snd (c : StreamChat) (e : Event) :
    (c._handleClientEvent e).2 = runListeners (gatherListeners c e.type) := by
  unfold StreamChat._handleClientEvent
  dsimp only
  repeat' split
  all_goals rfl

lemma connect_fst_userID (c : StreamChat) : ((c.connect).1).userID = c.userID := by
  unfold StreamChat.connect
  dsimp only
  repeat' split
  all_goals rfl

lemma connect_fst_userToken (c : StreamChat) : ((c.connect).1).userToken = c.userToken := by
  unfold StreamChat.connect
  dsimp only
  repeat' split
  all_goals rfl

lemma connect_fst_qs (c : StreamChat) : connectQs (c.connect).1 = connectQs c := by
  unfold StreamChat.connect
  dsimp only
  repeat' split
  all_goals rfl

lemma connect_count_or (c : StreamChat) :
    ((c.connect).2 = JSResult.ok c.wsConnectionCount ∧
      ((c.connect).1).wsConnectionCount = c.wsConnectionCount + 1) ∨
    ((∃ e, (c.connect).2 = JSResult.err e) ∧
      ((c.connect).1).wsConnectionCount = c.wsConnectionCount) := by
  unfold StreamChat.connect
  dsimp only
  split
  · exact Or.inr ⟨⟨_, rfl⟩, rfl⟩
  · split
    · exact Or.inr ⟨⟨_, rfl⟩, rfl⟩
    · exact Or.inl ⟨rfl, rfl⟩

lemma connect_snd_ok (c : StreamChat) (hu : c.userID ≠ none)
    (hq : (connectQs c).length ≤ 1900) :
    (c.connect).2 = JSResult.ok c.wsConnectionCount := by
  unfold StreamChat.connect
  dsimp only
  split
  · next h => exact absurd h hu
  · split
    · next h => exact absurd h (not_lt.mpr hq)
    · rfl

lemma connect_fst_count_ok (c : StreamChat) (hu : c.userID ≠ none)
    (hq : (connectQs c).length ≤ 1900) :
    ((c.connect).1).wsConnectionCount = c.wsConnectionCount + 1 := by
  unfold StreamChat.connect
  dsimp only
  split
  · next h => exact absurd h hu
  · split
    · next h => exact absurd h (not_lt.mpr hq)
    · rfl

/-- C7: after `disconnect()` the periodic cleaning interval started at
client construction is NOT cleared — `disconnect` never touches
`cleaningIntervalRef`, so the 500 ms `channel.clean()` tick keeps firing
after session end.  The claim (all recurring timers cleared) fails on this
timer; `wsConnection.disconnect()` does clear the connection-level
heartbeat and backoff timers (modelled from the spec). -/
theorem disconnect_leaves_cleaning_interval :
    (∀ c : StreamChat, (c.disconnect).cleaningActive = c.cleaningActive) ∧
    (∀ key secret, (StreamChat.newClient key secret).cleaningActive = true) ∧
    ((StreamChat.newClient "api-key" none).disconnect).cleaningActive = true := by
  refine ⟨fun c => ?_, fun key secret => rfl, rfl⟩
  unfold StreamChat.disconnect
  dsimp only
  split <;> rfl

/-- C3: with at least one active channel, `recoverState` first awaits
`queryChannels` over exactly the active channel cids with sort
`last_message_at: -1`, limit 30, `recovery: true` and the map of each
active channel's last known message id, and only afterwards dispatches the
synthetic `connection.recovered` event (the dispatch follows the query in
the recorded program-order trace); with no active channels it dispatches
nothing at all. -/
theorem recoverState_query_before_recovered (c c' : StreamChat)
    (h : c.activeChannels ≠ []) (h' : c'.activeChannels = []) :
    c.recoverState =
      [RecoverAction.query
        { cidIn := c.activeChannels.map Prod.fst
          sortField := "last_message_at"
          sortDirection := -1
          limit := 30
          recovery := true
          last_message_ids :=
            c.activeChannels.map (fun p => (p.2.cid, (p.2.lastMessage).map Message.id)) },
       RecoverAction.dispatchEv "connection.recovered"] ∧
    c'.recoverState = [] := by
  constructor
  · unfold StreamChat.recoverState
    dsimp only
    have hlen : (c.activeChannels.map Prod.fst).length ≠ 0 := by
      simp only [List.length_map]
      exact fun hh => h (List.length_eq_zero.mp hh)
    rw [if_pos hlen, foldl_push_eq_map]
    simp
  · unfold StreamChat.recoverState
    rw [h']
    rfl

def recoverChanA : Channel :=
  { objId := 0, chanType := "messaging", chanId := some "general",
    cid := "messaging:general", data := [], _data := [],
    messages := [{ id := "m1" }, { id := "m2" }] }

def recoverClient : StreamChat :=
  { StreamChat.newClient "api-key" none with
      activeChannels := [("messaging:general", recoverChanA)] }

/-- Witness for C3 at a client with one active channel whose last message
is `m2`, and at a fresh client with no active channels. -/
theorem recoverState_query_before_recovered_witness :
    recoverClient.recoverState =
      [RecoverAction.query
        { cidIn := ["messaging:general"]
          sortField := "last_message_at"
          sortDirection := -1
          limit := 30
          recovery := true
          last_message_ids := [("messaging:general", some "m2")] },
       RecoverAction.dispatchEv "connection.recovered"] ∧
    (StreamChat.newClient "api-key" none).recoverState = [] := by
  have h := recoverState_query_before_recovered recoverClient
    (StreamChat.newClient "api-key" none) (List.cons_ne_nil _ _) rfl
  exact ⟨by rw [h.1]; rfl, h.2⟩

def respWithZeroCode : HttpResponse :=
  { status := 500, data := some { code := some 0, message := some "boom" } }

/-- C6 counterexample: a non-2xx response whose body carries the code `0`.
Because `response.data.code` is tested for JavaScript truthiness, the
thrown error has NO `code` property and its message omits the
server-provided message, contradicting the claim for this body. -/
theorem handleResponse_zero_code_cex :
    respWithZeroCode.data = some { code := some 0, message := some "boom" } ∧
    StreamChat.handleResponse respWithZeroCode =
      HandleResult.thrown
        { message := "StreamChat error HTTP code: 500"
          code := none
          status := 500
          response := respWithZeroCode } :=
  ⟨rfl, rfl⟩

/-- C6 (amended): `handleResponse` returns `response.data` exactly when the
decimal string of the status begins with `'2'`; otherwise it throws
`errorFromResponse response`, whose `status` equals the response status
and, when the body carries a truthy (nonzero) `code`, whose `code` equals
the body's code and whose message embeds the server-provided message.  The
thrown error is returned to the caller; nothing here retries. -/
theorem handleResponse_status_and_error_fields (r : HttpResponse) :
    (StreamChat.handleResponse r = HandleResult.ok r.data ↔
      statusFirstChar r.status = '2') ∧
    (statusFirstChar r.status ≠ '2' →
      StreamChat.handleResponse r = HandleResult.thrown (StreamChat.errorFromResponse r) ∧
      (StreamChat.errorFromResponse r).status = r.status ∧
      (∀ b n, r.data = some b → b.code = some n → n ≠ 0 →
        (StreamChat.errorFromResponse r).code = some n ∧
        (StreamChat.errorFromResponse r).message =
          "StreamChat error code " ++ toString n ++ ": " ++ jsStr b.message)) := by
  by_cases hs : statusFirstChar r.status = '2'
  · constructor
    · simp [StreamChat.handleResponse, hs]
    · intro hne
      exact absurd hs hne
  · refine ⟨by simp [StreamChat.handleResponse, hs], fun _ => ?_⟩
    refine ⟨by simp [StreamChat.handleResponse, hs], ?_, ?_⟩
    · unfold StreamChat.errorFromResponse
      dsimp only
      repeat' split
      all_goals rfl
    · intro b n hb hn hn0
      have hct : codeTruthy b.code = true := by
        rw [hn]
        simp [codeTruthy, hn0]
      unfold StreamChat.errorFromResponse
      rw [hb]
      dsimp only
      rw [if_pos hct, hn]
      exact ⟨rfl, rfl⟩

/-- Witness for C6 (amended) at a 404 response carrying code 16 and a
server message, and at a 200 response. -/
theorem handleResponse_status_and_error_fields_witness :
    StreamChat.handleResponse { status := 404, data := some { code := some 16, message := some "not found" } } =
      HandleResult.thrown (StreamChat.errorFromResponse { status := 404, data := some { code := some 16, message := some "not found" } }) ∧
    (StreamChat.errorFromResponse { status := 404, data := some { code := some 16, message := some "not found" } }).code = some 16 ∧
    (StreamChat.errorFromResponse { status := 404, data := some { code := some 16, message := some "not found" } }).message =
      "StreamChat error code 16: not found" ∧
    StreamChat.handleResponse { status := 200, data := none } = HandleResult.ok none := by
  have h := handleResponse_status_and_error_fields
    { status := 404, data := some { code := some 16, message := some "not found" } }
  have h2 := h.2 (by decide)
  have h3 := h2.2.2 { code := some 16, message := some "not found" } 16 rfl rfl (by decide)
  refine ⟨h2.1, h3.1, by rw [h3.2]; rfl, ?_⟩
  have h200 := (handleResponse_status_and_error_fields { status := 200, data := none }).1.mpr (by decide)
  exact h200

def listenerThrowClient : StreamChat :=
  { StreamChat.newClient "api-key" none with
      listeners := [("message.new",
        [{ lid := 1, throws := true }, { lid := 2, throws := false }])] }

/-- C2 counterexample: two listeners registered for `message.new`; the
first throws.  The second listener is registered for the dispatched event
but is never invoked — the dispatch loop has no exception handling, so a
listener error does prevent subsequent listeners from running. -/
theorem listener_throw_stops_dispatch_cex :
    gatherListeners listenerThrowClient "message.new" =
      [{ lid := 1, throws := true }, { lid := 2, throws := false }] ∧
    (listenerThrowClient._handleClientEvent (basicEvent "message.new")).2.1 = [1] ∧
    2 ∉ (listenerThrowClient._handleClientEvent (basicEvent "message.new")).2.1 ∧
    (listenerThrowClient._handleClientEvent (basicEvent "message.new")).2.2 = some 1 := by
  refine ⟨rfl, rfl, by decide, rfl⟩

/-- C2 (amended): `_handleClientEvent` invokes the catch-all listeners
followed by the event type's listeners, in registration order within each
scope; when no listener throws, every gathered listener is invoked and no
exception escapes.  An exception thrown by a listener propagates and
prevents the remaining listeners of that event from being invoked.  The
listener registry is not modified by dispatch, so the next event is
dispatched to the full listener set. -/
theorem handleClientEvent_listener_order_and_abort (c : StreamChat) (e : Event) :
    ((c._handleClientEvent e).1).listeners = c.listeners ∧
    ((∀ l ∈ gatherListeners c e.type, l.throws = false) →
      (c._handleClientEvent e).2.1 = (gatherListeners c e.type).map Listener.lid ∧
      (c._handleClientEvent e).2.2 = none) ∧
    (∀ pre l post, gatherListeners c e.type = pre ++ l :: post →
      (∀ p ∈ pre, p.throws = false) → l.throws = true →
      (c._handleClientEvent e).2.1 = pre.map Listener.lid ++ [l.lid] ∧
      (c._handleClientEvent e).2.2 = some l.lid) := by
  refine ⟨handleClientEvent_fst_listeners c e, ?_, ?_⟩
  · intro hall
    have h := handleClientEvent_snd c e
    have hr := runListeners_no_throw _ hall
    constructor
    · rw [h, hr]
    · rw [h, hr]
  · intro pre l post hsplit hpre hl
    have h := handleClientEvent_snd c e
    have hr := runListeners_append_throw pre l post hpre hl
    constructor
    · rw [h, hsplit, hr]
    · rw [h, hsplit, hr]

def listenerOrderClient : StreamChat :=
  { StreamChat.newClient "api-key" none with
      listeners := [("all", [{ lid := 5, throws := false }]),
                    ("message.new", [{ lid := 6, throws := false }])] }

/-- Witness for C2 (amended): one catch-all listener and one `message.new`
listener, none throwing — both run, catch-all first, and the registry is
unchanged. -/
theorem handleClientEvent_listener_order_and_abort_witness :
    ((listenerOrderClient._handleClientEvent (basicEvent "message.new")).1).listeners =
      listenerOrderClient.listeners ∧
    (listenerOrderClient._handleClientEvent (basicEvent "message.new")).2.1 = [5, 6] ∧
    (listenerOrderClient._handleClientEvent (basicEvent "message.new")).2.2 = none := by
  have h := handleClientEvent_listener_order_and_abort listenerOrderClient
    (basicEvent "message.new")
  have h2 := h.2.1 (by decide)
  exact ⟨h.1, by rw [h2.1]; rfl, h2.2⟩

def cexUserC1 : User := { id := some "u", extra := [] }

def cexTokC1 : Token := { user_id := some "u", raw := "t" }

def cexClientC1 : StreamChat :=
  ((StreamChat.newClient "k" none).setUser "U" cexUserC1 (some cexTokC1)).1

set_option maxHeartbeats 1000000 in
/-- C1 counterexample: on a session where `setUser` succeeded (its promise
resolved as promise 0), two further `connect()` calls each construct a new
`StableWSConnection` — the construction count rises by two — and the two
callers receive different promises, not the existing outstanding one. -/
theorem connect_two_calls_two_sockets_cex :
    ((StreamChat.newClient "k" none).setUser "U" cexUserC1 (some cexTokC1)).2 =
      JSResult.ok 0 ∧
    (cexClientC1.connect).2 = JSResult.ok 1 ∧
    ((cexClientC1.connect).1.connect).2 = JSResult.ok 2 ∧
    (cexClientC1.connect).2 ≠ ((cexClientC1.connect).1.connect).2 ∧
    (((cexClientC1.connect).1.connect).1).wsConnectionCount =
      cexClientC1.wsConnectionCount + 2 := by
  refine ⟨rfl, rfl, rfl, by decide, rfl⟩

/-- C1 (amended): `connect()` is not idempotent — whenever it succeeds it
constructs a fresh `StableWSConnection` and replaces `wsPromise`, so two
calls on a connected client construct two physical sockets and hand the
two callers different promises. -/
theorem connect_not_idempotent_two_sockets (c : StreamChat)
    (hu : c.userID ≠ none)
    (hq : (connectQs c).length ≤ 1900) :
    (c.connect).2 = JSResult.ok c.wsConnectionCount ∧
    ((c.connect).1.connect).2 = JSResult.ok (c.wsConnectionCount + 1) ∧
    (((c.connect).1.connect).1).wsConnectionCount = c.wsConnectionCount + 2 ∧
    (c.connect).2 ≠ ((c.connect).1.connect).2 := by
  have h1 := connect_snd_ok c hu hq
  have hu2 : ((c.connect).1).userID ≠ none := by
    rw [connect_fst_userID]
    exact hu
  have hq2 : (connectQs (c.connect).1).length ≤ 1900 := by
    rw [connect_fst_qs]
    exact hq
  have hc1 := connect_fst_count_ok c hu hq
  have h2 := connect_snd_ok (c.connect).1 hu2 hq2
  have hc2 := connect_fst_count_ok (c.connect).1 hu2 hq2
  rw [hc1] at h2 hc2
  refine ⟨h1, h2, by rw [hc2], ?_⟩
  rw [h1, h2]
  intro hh
  injection hh with hh'
  omega

def wClient : StreamChat :=
  { StreamChat.newClient "wkey" none with userID := some "w" }

set_option maxHeartbeats 1000000 in
/-- Witness for C1 (amended) at a client with user `w` and no prior
socket. -/
theorem connect_not_idempotent_two_sockets_witness :
    (wClient.connect).2 = JSResult.ok 0 ∧
    ((wClient.connect).1.connect).2 = JSResult.ok 1 ∧
    (((wClient.connect).1.connect).1).wsConnectionCount = 2 ∧
    (wClient.connect).2 ≠ ((wClient.connect).1.connect).2 :=
  connect_not_idempotent_two_sockets wClient (by decide) (by decide)

/-- C5: on a client with a user set, `connect()` throws exactly the error
`User object is too large` precisely when
`encodeURIComponent(JSON.stringify({client_id, user_id, user_details,
user_token}))` exceeds 1900 characters, and in that case it throws before
any `StableWSConnection` is constructed: the construction count, the
connection handle and the stored promise are all unchanged (and nothing
retries the thrown error). -/
theorem connect_oversized_payload_check (c : StreamChat) (hu : c.userID ≠ none) :
    ((c.connect).2 = JSResult.err "User object is too large" ↔
      1900 < (encodeURIComponent (jsonStringifyV (connectParamsJson c))).length) ∧
    (1900 < (encodeURIComponent (jsonStringifyV (connectParamsJson c))).length →
      ((c.connect).1).wsConnectionCount = c.wsConnectionCount ∧
      ((c.connect).1).hasWsConnection = c.hasWsConnection ∧
      ((c.connect).1).wsPromiseId = c.wsPromiseId) := by
  unfold StreamChat.connect
  dsimp only
  split
  · next h => exact absurd h hu
  · split
    · next h =>
      exact ⟨⟨fun _ => h, fun _ => rfl⟩, fun _ => ⟨rfl, rfl, rfl⟩⟩
    · next h =>
      constructor
      · constructor
        · intro hh
          exact JSResult.noConfusion hh
        · intro hh
          exact absurd hh h
      · intro hh
        exact absurd hh h

def c5SmallClient : StreamChat :=
  { StreamChat.newClient "ck" none with userID := some "cu" }

set_option maxHeartbeats 1000000 in
/-- Witness for C5: a client whose encoded payload stays under the 1900
character limit does not throw `User object is too large`. -/
theorem connect_oversized_payload_check_witness :
    ¬((c5SmallClient.connect).2 = JSResult.err "User object is too large") ∧
    ¬(1900 < (encodeURIComponent (jsonStringifyV (connectParamsJson c5SmallClient))).length) := by
  have hsmall := connect_oversized_payload_check c5SmallClient (by decide)
  have hlen : ¬(1900 <
      (encodeURIComponent (jsonStringifyV (connectParamsJson c5SmallClient))).length) := by
    decide
  exact ⟨fun hh => hlen (hsmall.1.mp hh), hlen⟩

lemma setupConnection_fst_userID (uuid : String) (c : StreamChat) :
    ((StreamChat._setupConnection uuid c).1).userID = c.userID := by
  unfold StreamChat._setupConnection StreamChat.connect
  dsimp only
  repeat' split
  all_goals rfl

lemma setupConnection_fst_userToken (uuid : String) (c : StreamChat) :
    ((StreamChat._setupConnection uuid c).1).userToken = c.userToken := by
  unfold StreamChat._setupConnection StreamChat.connect
  dsimp only
  repeat' split
  all_goals rfl

lemma setupConnection_count_or (uuid : String) (c : StreamChat) :
    ((∃ p, (StreamChat._setupConnection uuid c).2 = JSResult.ok p) ∧
      ((StreamChat._setupConnection uuid c).1).wsConnectionCount = c.wsConnectionCount + 1) ∨
    ((∃ e, (StreamChat._setupConnection uuid c).2 = JSResult.err e) ∧
      ((StreamChat._setupConnection uuid c).1).wsConnectionCount = c.wsConnectionCount) := by
  unfold StreamChat._setupConnection StreamChat.connect
  dsimp only
  split
  · exact Or.inr ⟨⟨_, rfl⟩, rfl⟩
  · split
    · exact Or.inr ⟨⟨_, rfl⟩, rfl⟩
    · exact Or.inl ⟨⟨_, rfl⟩, rfl⟩

lemma setUser_guard_throws (c : StreamChat) (uuid : String) (user : User)
    (tok : Option Token) (h : truthyStr c.userID = true) :
    c.setUser uuid user tok =
      (c, JSResult.err "Use client.disconnect() before trying to connect as a different user. setUser was called twice.") := by
  unfold StreamChat.setUser
  rw [if_pos h]

lemma setUser_id_missing (c : StreamChat) (uuid : String) (user : User)
    (tok : Option Token) (h0 : truthyStr c.userID = false)
    (h1 : truthyStr user.id = false) :
    c.setUser uuid user tok =
      ({ c with userID := user.id }, JSResult.err "The \"id\" field on the user is missing") := by
  unfold StreamChat.setUser
  rw [if_neg (by simp [h0]),
    if_pos (show truthyStr ({ c with userID := user.id } : StreamChat).userID = false by simpa using h1)]

lemma setUser_fst_userID (c : StreamChat) (uuid : String) (user : User)
    (tok : Option Token) (h0 : truthyStr c.userID = false)
    (h1 : truthyStr user.id = true) :
    ((c.setUser uuid user tok).1).userID = user.id := by
  unfold StreamChat.setUser
  dsimp only
  split
  · next hcond => rw [h0] at hcond; simp at hcond
  · split
    · next hcond => simp [h1] at hcond
    · repeat' split
      all_goals first
        | rfl
        | (rw [setupConnection_fst_userID]; rfl)

lemma setUser_fst_userToken_of_ne (c : StreamChat) (uuid : String) (user : User)
    (tok : Option Token) (h0 : truthyStr c.userID = false)
    (h1 : truthyStr user.id = true) (hA : tok ≠ none) :
    ((c.setUser uuid user tok).1).userToken = tok := by
  unfold StreamChat.setUser
  dsimp only
  rw [if_neg (show ¬(tok = none ∧ c.secret ≠ none) from fun hh => hA hh.1)]
  split
  · next hcond => rw [h0] at hcond; simp at hcond
  · split
    · next hcond => simp [h1] at hcond
    · repeat' split
      all_goals first
        | rfl
        | (rw [setupConnection_fst_userToken]; rfl)

lemma setUser_count_or (c : StreamChat) (uuid : String) (user : User)
    (tok : Option Token) (h0 : truthyStr c.userID = false)
    (h1 : truthyStr user.id = true) :
    ((∃ p, (c.setUser uuid user tok).2 = JSResult.ok p) ∧
      ((c.setUser uuid user tok).1).wsConnectionCount = c.wsConnectionCount + 1) ∨
    ((∃ e, (c.setUser uuid user tok).2 = JSResult.err e) ∧
      ((c.setUser uuid user tok).1).wsConnectionCount = c.wsConnectionCount) := by
  unfold StreamChat.setUser
  dsimp only
  split
  · next hcond => rw [h0] at hcond; simp at hcond
  · split
    · next hcond => simp [h1] at hcond
    · repeat' split
      all_goals first
        | exact Or.inr ⟨⟨_, rfl⟩, rfl⟩
        | exact setupConnection_count_or uuid _

lemma setUser_ok_userID (c : StreamChat) (uuid : String) (user : User)
    (tok : Option Token) (c' : StreamChat) (p : Nat)
    (h : c.setUser uuid user tok = (c', JSResult.ok p)) :
    truthyStr c'.userID = true := by
  have hsnd : (c.setUser uuid user tok).2 = JSResult.ok p := by rw [h]
  have h0' : truthyStr c.userID = false := by
    cases hb : truthyStr c.userID with
    | false => rfl
    | true =>
      rw [setUser_guard_throws c uuid user tok hb] at hsnd
      exact JSResult.noConfusion hsnd
  have h1' : truthyStr user.id = true := by
    cases hb : truthyStr user.id with
    | true => rfl
    | false =>
      rw [setUser_id_missing c uuid user tok h0' hb] at hsnd
      exact JSResult.noConfusion hsnd
  have hid := setUser_fst_userID c uuid user tok h0' h1'
  have hfst : (c.setUser uuid user tok).1 = c' := by rw [h]
  rw [hfst] at hid
  rw [hid]
  exact h1'

/-- C4: once `setUser` has succeeded on a session, any second `setUser`
call throws the duplicate-`setUser` configuration error synchronously at
its first statement: the returned state is exactly the pre-call state, so
no token handling happened (`userToken` unchanged) and no second physical
socket was constructed (the construction count unchanged). -/
theorem setUser_twice_throws_sync (c c' : StreamChat) (uuid uuid' : String)
    (user user' : User) (tok tok' : Option Token) (p : Nat)
    (h : c.setUser uuid user tok = (c', JSResult.ok p)) :
    c'.setUser uuid' user' tok' =
      (c', JSResult.err "Use client.disconnect() before trying to connect as a different user. setUser was called twice.") ∧
    ((c'.setUser uuid' user' tok').1).userToken = c'.userToken ∧
    ((c'.setUser uuid' user' tok').1).wsConnectionCount = c'.wsConnectionCount := by
  have heq := setUser_guard_throws c' uuid' user' tok' (setUser_ok_userID c uuid user tok c' p h)
  exact ⟨heq, by rw [heq], by rw [heq]⟩

def c4User : User := { id := some "alice", extra := [] }

def c4Tok : Token := { user_id := some "alice", raw := "tok4" }

set_option maxHeartbeats 1000000 in
/-- Witness for C4: after a successful `setUser` as `alice`, a second
`setUser` on the resulting client returns the unchanged client and the
duplicate-`setUser` error. -/
theorem setUser_twice_throws_sync_witness :
    ((StreamChat.newClient "k4" none).setUser "U4" c4User (some c4Tok)).1.setUser "U4b" c4User (some c4Tok) =
      (((StreamChat.newClient "k4" none).setUser "U4" c4User (some c4Tok)).1,
        JSResult.err "Use client.disconnect() before trying to connect as a different user. setUser was called twice.") :=
  (setUser_twice_throws_sync (StreamChat.newClient "k4" none) _ "U4" "U4b" c4User c4User
    (some c4Tok) (some c4Tok) 0 rfl).1

/-- C9: `setUser` is not atomic on failure.  On a fresh client, when
`setUser` throws after assigning `this.userID` (token user-id mismatch, no
token and no secret, or any later failure), the client retains
`userID = user.id` (and, whenever a token was passed, `userToken`), no
socket was constructed, and every subsequent `setUser` call on the same
instance throws the duplicate-`setUser` error with the state unchanged. -/
theorem setUser_nonatomic_on_failure (c c' : StreamChat) (uuid : String)
    (user : User) (tok : Option Token) (e : String)
    (h0 : c.userID = none) (h1 : truthyStr user.id = true)
    (h : c.setUser uuid user tok = (c', JSResult.err e)) :
    c'.userID = user.id ∧
    c'.wsConnectionCount = c.wsConnectionCount ∧
    (tok ≠ none → c'.userToken = tok) ∧
    (∀ uuid' user' tok', c'.setUser uuid' user' tok' =
      (c', JSResult.err "Use client.disconnect() before trying to connect as a different user. setUser was called twice.")) := by
  have h0' : truthyStr c.userID = false := by rw [h0]; rfl
  have hfst : (c.setUser uuid user tok).1 = c' := by rw [h]
  have hsnd : (c.setUser uuid user tok).2 = JSResult.err e := by rw [h]
  have hid := setUser_fst_userID c uuid user tok h0' h1
  rw [hfst] at hid
  have hcnt : ((c.setUser uuid user tok).1).wsConnectionCount = c.wsConnectionCount := by
    rcases setUser_count_or c uuid user tok h0' h1 with ⟨⟨p, hp⟩, _⟩ | ⟨_, hc⟩
    · rw [hp] at hsnd
      exact JSResult.noConfusion hsnd
    · exact hc
  rw [hfst] at hcnt
  refine ⟨hid, hcnt, ?_, ?_⟩
  · intro hne
    have htok := setUser_fst_userToken_of_ne c uuid user tok h0' h1 hne
    rw [hfst] at htok
    exact htok
  · intro uuid' user' tok'
    apply setUser_guard_throws
    rw [hid]
    exact h1

def c9User : User := { id := some "bob", extra := [] }

def c9Tok : Token := { user_id := some "carol", raw := "tok9" }

set_option maxHeartbeats 1000000 in
/-- Witness for C9: `setUser` as `bob` with a token embedding `carol`
throws the mismatch error, yet leaves `userID = bob` and the token stored,
so the next `setUser` fails with the duplicate-`setUser` error. -/
theorem setUser_nonatomic_on_failure_witness :
    (((StreamChat.newClient "k9" none).setUser "U9" c9User (some c9Tok)).1).userID = some "bob" ∧
    (((StreamChat.newClient "k9" none).setUser "U9" c9User (some c9Tok)).1).wsConnectionCount = 0 ∧
    (((StreamChat.newClient "k9" none).setUser "U9" c9User (some c9Tok)).1).userToken = some c9Tok ∧
    (((StreamChat.newClient "k9" none).setUser "U9" c9User (some c9Tok)).1).setUser "U9b" c9User (some c9Tok) =
      (((StreamChat.newClient "k9" none).setUser "U9" c9User (some c9Tok)).1,
        JSResult.err "Use client.disconnect() before trying to connect as a different user. setUser was called twice.") := by
  have h := setUser_nonatomic_on_failure (StreamChat.newClient "k9" none) _ "U9" c9User
    (some c9Tok) "userToken does not have a user_id or is not matching with user.id"
    rfl (by decide) rfl
  exact ⟨h.1, h.2.1, h.2.2.1 (by decide), h.2.2.2 "U9b" c9User (some c9Tok)⟩

/-- `n`-fold repetition of `on(t, f)` (keeping the state unchanged on the
validation error, which cannot occur for a valid key). -/
def applyOnN (c : StreamChat) (keyArg : Option String) (f : Listener) : Nat → StreamChat
  | 0 => c
  | n + 1 =>
      match (applyOnN c keyArg f n).on keyArg f with
      | .ok c' => c'
      | .err _ => applyOnN c keyArg f n

lemma on_ok_eq (c : StreamChat) (k : String) (f : Listener)
    (hv : isValidEventType k = true) :
    c.on (some k) f = JSResult.ok
      { c with listeners := assocSet c.listeners k (assocGetD c.listeners k [] ++ [f]) } := by
  unfold StreamChat.on
  dsimp only
  rw [if_neg (by simp [hv])]

lemma off_ok_eq (c : StreamChat) (k : String) (f : Listener)
    (hv : isValidEventType k = true) :
    c.off (some k) f = JSResult.ok
      { c with listeners := (assocSet c.listeners k
          ((assocGetD c.listeners k []).filter (fun v => v.lid != f.lid))) } := by
  unfold StreamChat.off
  dsimp only
  rw [if_neg (by simp [hv])]

lemma applyOnN_get_self (c : StreamChat) (t : String) (f : Listener) (n : Nat)
    (hv : isValidEventType t = true) :
    assocGetD (applyOnN c (some t) f n).listeners t [] =
      assocGetD c.listeners t [] ++ List.replicate n f := by
  induction n with
  | zero => simp [applyOnN]
  | succ m ih =>
    unfold applyOnN
    rw [on_ok_eq _ _ _ hv]
    dsimp only
    have hrep : List.replicate (m + 1) f = List.replicate m f ++ [f] := by
      simp [List.replicate_succ']
    simp only [assocGetD] at ih ⊢
    rw [hrep, assocGet_assocSet_self]
    simp only [Option.getD_some]
    rw [ih, List.append_assoc]

lemma applyOnN_get_other (c : StreamChat) (t : String) (f : Listener) (n : Nat)
    (hv : isValidEventType t = true) (k : String) (hk : k ≠ t) :
    assocGetD (applyOnN c (some t) f n).listeners k [] =
      assocGetD c.listeners k [] := by
  induction n with
  | zero => simp [applyOnN]
  | succ m ih =>
    unfold applyOnN
    rw [on_ok_eq _ _ _ hv]
    dsimp only
    rw [← ih]
    simp [assocGetD, assocGet_assocSet_ne _ _ _ _ hk]

lemma count_replicate_self_nat (n : Nat) (x : Nat) :
    (List.replicate n x).count x = n := by
  induction n with
  | zero => rfl
  | succ m ih => simp [List.replicate_succ, List.count_cons, ih]

/-- C8: `on(t, f)` appends one registration per call (no deduplication):
after `n` registrations under a valid type `t`, the listener list under `t`
has gained exactly `n` copies of `f`, and dispatching an event of type `t`
invokes `f` exactly `n` times (given `f` was not previously registered and
no gathered listener throws).  `off(t, f)` removes precisely the
registrations under `t` whose reference equals `f`, leaving the other
registrations under `t` and every other key untouched. -/
theorem on_off_registration_semantics (c : StreamChat) (t : String) (f : Listener) (n : Nat)
    (hv : isValidEventType t = true)
    (hall : t ≠ "all")
    (hfresh : ∀ l ∈ gatherListeners c t, l.lid ≠ f.lid ∧ l.throws = false)
    (hf : f.throws = false) :
    assocGetD (applyOnN c (some t) f n).listeners t [] =
      assocGetD c.listeners t [] ++ List.replicate n f ∧
    ((applyOnN c (some t) f n)._handleClientEvent (basicEvent t)).2.1.count f.lid = n ∧
    (∀ c', (applyOnN c (some t) f n).off (some t) f = JSResult.ok c' →
      assocGetD c'.listeners t [] =
        (assocGetD (applyOnN c (some t) f n).listeners t []).filter
          (fun v => v.lid != f.lid) ∧
      (∀ k, k ≠ t → assocGetD c'.listeners k [] =
        assocGetD (applyOnN c (some t) f n).listeners k [])) := by
  have hself := applyOnN_get_self c t f n hv
  refine ⟨hself, ?_, ?_⟩
  · have hgather : gatherListeners (applyOnN c (some t) f n) ((basicEvent t).type) =
        gatherListeners c t ++ List.replicate n f := by
      unfold gatherListeners
      rw [show (basicEvent t).type = t from rfl, hself,
        applyOnN_get_other c t f n hv "all" (Ne.symm hall)]
      simp [gatherListeners, List.append_assoc]
    have hnothrow : ∀ l ∈ gatherListeners c t ++ List.replicate n f, l.throws = false := by
      intro l hl
      rcases List.mem_append.mp hl with h1 | h2
      · exact (hfresh l h1).2
      · rw [List.eq_of_mem_replicate h2]
        exact hf
    have hsnd := handleClientEvent_snd (applyOnN c (some t) f n) (basicEvent t)
    rw [hsnd, hgather, runListeners_no_throw _ hnothrow]
    dsimp only
    rw [List.map_append, List.count_append,
      count_map_lid_eq_zero _ _ (fun l hl => (hfresh l hl).1),
      List.map_replicate, count_replicate_self_nat]
    omega
  · intro c' hoff
    rw [off_ok_eq _ _ _ hv] at hoff
    injection hoff with h'
    subst h'
    constructor
    · simp [assocGetD, assocGet_assocSet_self]
    · intro k hk
      simp [assocGetD, assocGet_assocSet_ne _ _ _ _ hk]

/-- Witness for C8: two registrations of listener 7 under `message.new` on
a fresh client; dispatch invokes it twice; `off` removes both. -/
theorem on_off_registration_semantics_witness :
    assocGetD (applyOnN (StreamChat.newClient "k8" none) (some "message.new")
        { lid := 7, throws := false } 2).listeners "message.new" [] =
      [{ lid := 7, throws := false }, { lid := 7, throws := false }] ∧
    ((applyOnN (StreamChat.newClient "k8" none) (some "message.new")
        { lid := 7, throws := false } 2)._handleClientEvent
        (basicEvent "message.new")).2.1.count 7 = 2 ∧
    (∃ c', (applyOnN (StreamChat.newClient "k8" none) (some "message.new")
        { lid := 7, throws := false } 2).off (some "message.new")
        { lid := 7, throws := false } = JSResult.ok c' ∧
      assocGetD c'.listeners "message.new" [] = []) := by
  have h := on_off_registration_semantics (StreamChat.newClient "k8" none)
    "message.new" { lid := 7, throws := false } 2 (by decide) (by decide)
    (by decide) rfl
  refine ⟨by rw [h.1]; rfl, h.2.1, ?_⟩
  refine ⟨_, off_ok_eq _ _ _ (by decide), ?_⟩
  have h3 := (h.2.2 _ (off_ok_eq _ _ _ (by decide))).1
  rw [h3]
  rfl

/-- C10: for a cid already cached in `activeChannels`, `channel(type, id,
custom)` returns the identical cached `Channel` object (same object
identity, no new construction): with a nonempty `custom` its `data` and
`_data` are replaced wholesale by `custom` (no merge) both on the returned
object and in the cache, and with an empty `custom` the client and the
cached channel are returned completely unchanged. -/
theorem channel_cached_replace_semantics (c : StreamChat) (t s : String)
    (custom : List (String × JsonValue)) (cached : Channel)
    (hauth : ¬(truthyStr c.userID = false ∧ c._isUsingServerAuth = false))
    (ht : jsContains t ':' = false)
    (hs : jsContains s ':' = false)
    (hs0 : s ≠ "")
    (hcached : assocGet c.activeChannels (t ++ ":" ++ s) = some cached) :
    (custom ≠ [] →
      c.channel t (ChannelIdArg.str s) custom =
        JSResult.ok
          ({ c with activeChannels := (assocSet c.activeChannels (t ++ ":" ++ s)
              { cached with data := custom, _data := custom }) },
           { cached with data := custom, _data := custom })) ∧
    (custom = [] →
      c.channel t (ChannelIdArg.str s) custom = JSResult.ok (c, cached)) := by
  unfold StreamChat.channel
  rw [if_neg hauth, if_neg (by simp [ht])]
  dsimp only
  rw [if_neg (by simp [hs]), if_pos hs0, hcached]
  dsimp only
  constructor
  · intro hne
    rw [if_pos (List.length_pos.mpr hne)]
  · intro heq
    subst heq
    rw [if_neg (by simp)]

def chCached : Channel :=
  { objId := 3, chanType := "messaging", chanId := some "general",
    cid := "messaging:general", data := [("name", JsonValue.jstr "old")],
    _data := [("name", JsonValue.jstr "old")], messages := [] }

def c10Client : StreamChat :=
  { StreamChat.newClient "kc" (some "secret10") with
      activeChannels := [("messaging:general", chCached)] }

/-- Witness for C10: on a server-auth client caching `messaging:general`,
a nonempty `custom` replaces the cached channel's data wholesale and an
empty `custom` returns the cache untouched. -/
theorem channel_cached_replace_semantics_witness :
    c10Client.channel "messaging" (ChannelIdArg.str "general")
        [("name", JsonValue.jstr "new")] =
      JSResult.ok
        ({ c10Client with activeChannels := (assocSet c10Client.activeChannels
            "messaging:general"
            { chCached with data := [("name", JsonValue.jstr "new")],
                            _data := [("name", JsonValue.jstr "new")] }) },
         { chCached with data := [("name", JsonValue.jstr "new")],
                         _data := [("name", JsonValue.jstr "new")] }) ∧
    c10Client.channel "messaging" (ChannelIdArg.str "general") [] =
      JSResult.ok (c10Client, chCached) := by
  have h := channel_cached_replace_semantics c10Client "messaging" "general"
    [("name", JsonValue.jstr "new")] chCached (by decide) (by decide) (by decide)
    (by decide) rfl
  have h0 := channel_cached_replace_semantics c10Client "messaging" "general"
    [] chCached (by decide) (by decide) (by decide) (by decide) rfl
  exact ⟨h.1 (by simp), h0.2 rfl⟩
